import Mathlib

/-!
Shallow embedding of the podman-debug session constructor and its dispatcher
(repository rsturla/podman-debug).  The Go source is translated into pure
Lean functions: outcomes of syscalls and of external commands are supplied
through oracle records, and every mutating syscall that the code attempts is
recorded in an event trace so that ordering properties can be stated and
proved.  Exit codes are modelled as integers, errors as strings (only the
static part of each Go format string is kept), and file sizes as naturals.
-/

/-- Substring search on character lists, mirroring Go strings.Contains:
the pattern is matched at every suffix of the text. -/
def listIsInfixOf (sub : List Char) : List Char → Bool
  | [] => sub.isEmpty
  | c :: rest => sub.isPrefixOf (c :: rest) || listIsInfixOf sub rest

/-- Go strings.Contains applied to the underlying character data. -/
def strContains (s sub : String) : Bool := listIsInfixOf sub.data s.data

/-- Correctness of the substring search: it decides the infix relation on
the character data. -/
theorem strContains_correct (s sub : String) :
    strContains s sub = true ↔ sub.data <:+: s.data := by
  unfold strContains
  induction s.data with
  | nil =>
    simp [listIsInfixOf, List.isEmpty_iff]
  | cons c rest ih =>
    simp only [listIsInfixOf, Bool.or_eq_true, ih, List.infix_cons_iff,
      List.isPrefixOf_iff_prefix]

/-- Subset of podman container inspect output used by the dispatcher
(ContainerInfo in the podman client package). -/
structure ContainerInfo where
  id : String
  state : String
  pid : Int
deriving DecidableEq

/-- The isNotFound test of cmd/podman-debug/main.go: a nil error is never
NotFound, otherwise the error text is searched for three fixed substrings. -/
def isNotFound : Option String → Bool
  | none => false
  | some msg =>
      strContains msg "no container with name or ID" ||
      strContains msg "no such container" ||
      strContains msg "inspecting container"

/-- The tryContainerDebug branch of the dispatcher: the inspection result is
either an error (passed through) or container metadata, whose state selects
a live session (running, paused), a snapshot session (stopped, exited,
created, configured) or an unsupported-state error.  The runLive and
runSnapshot parameters stand for the outcome of runLiveDebug and
runSnapshotDebug; the best-effort entrypoint inspection and the terminal
setup in the source have no effect on this control flow and are omitted. -/
def tryContainerDebug (inspectRes : Except String ContainerInfo)
    (runLive : Int → Except String Int) (runSnapshot : Unit → Except String Int) :
    Except String Int :=
  match inspectRes with
  | .error e => .error e
  | .ok ctr =>
    if ctr.state = "running" then runLive ctr.pid
    else if ctr.state = "paused" then runLive ctr.pid
    else if ctr.state = "stopped" || ctr.state = "exited" ||
        ctr.state = "created" || ctr.state = "configured" then runSnapshot ()
    else .error ("container is in unsupported state: " ++ ctr.state)

/-- Outcome of the dispatcher: the final result and whether image mode was
attempted after the container attempt. -/
structure Dispatch where
  result : Except String Int
  triedImage : Bool

/-- The debugRun dispatch of main.go: the reference is tried as a container
first; on success that exit code is final; on an error passing isNotFound
the image path is tried (its error being wrapped), any other error is
returned without an image attempt. -/
def debugRunDispatch (ref : String) (tryCtr : Except String Int)
    (tryImg : Except String Int) : Dispatch :=
  match tryCtr with
  | .ok code => ⟨.ok code, false⟩
  | .error e =>
    if isNotFound (some e) then
      match tryImg with
      | .ok code => ⟨.ok code, true⟩
      | .error e2 => ⟨.error ("no container or image found for " ++ ref ++ ": " ++ e2), true⟩
    else ⟨.error e, false⟩

/-- Outcome of waiting on the shell child process: either the child exited,
carrying its exit code (a nil error from Go Wait or Run counts as exit 0,
an ExitError carries the code), or waiting itself failed with a non-exit
error. -/
inductive WaitOutcome where
  | exited (code : Int)
  | waitErr (msg : String)
deriving DecidableEq

/-- Result of runShell: exit code, error, and whether the PTY backed
interactive path was taken. -/
structure ShellRun where
  exitCode : Int
  err : Option String
  usedPty : Bool
deriving DecidableEq

/-- The runShell function of the shell runner: the interactive path is taken
when the stdin stream is present and the interactive flag (passed by both
ExecLive and ExecSnapshot as emptiness of the shell argument list) is set;
that path allocates a PTY and on allocation failure returns 125.  The
non-interactive path inherits the three stream handles directly and turns a
non-exit error from running the command into 125.  A non-exit wait error on
the interactive path is dropped by the source (the reassigned local error is
never returned), leaving the zero exit code. -/
def runShell (stdinPresent : Bool) (interactive : Bool)
    (ptyStartOK : Bool) (wait : WaitOutcome) : ShellRun :=
  if stdinPresent && interactive then
    if !ptyStartOK then ⟨125, some "pty start failed", true⟩
    else
      match wait with
      | .exited c => ⟨c, none, true⟩
      | .waitErr _ => ⟨0, none, true⟩
  else
    match wait with
    | .exited c => ⟨c, none, false⟩
    | .waitErr m => ⟨125, some m, false⟩

/-- Stdin handle presence from resolveStreams in main.go: the stdin stream
is included exactly when the interactive flag is set; whether stdin is
actually a terminal is never consulted there. -/
def resolveStreamsStdinPresent (flagInteractive : Bool) : Bool := flagInteractive

/-- Modelled from the spec words in its Terminal Supervisor section, for
comparison only: the interactive path is selected when shell args are empty
and stdin is a terminal. -/
def specInteractiveSelection (stdinIsTerminal : Bool) (shellArgs : List String) : Bool :=
  shellArgs.isEmpty && stdinIsTerminal

/-- Cobra MinimumNArgs(1) check configured on the root command: with fewer
than one positional argument, execution fails with a usage error before the
RunE body runs. -/
def minimumNArgsErr (args : List String) : Option String :=
  if args.length < 1 then some "requires at least 1 arg(s), only received 0" else none

/-- Execution of the root command: a usage error is returned as an ordinary
error, otherwise the RunE body (debugRun) decides the outcome.  A returned
Except.ok code models debugRun terminating the process with the shell exit
code. -/
def rootCmdExecute (args : List String)
    (runE : List String → Except String Int) : Except String Int :=
  match minimumNArgsErr args with
  | some e => .error e
  | none => runE args

/-- The error handling of main: a successful run exits with the code chosen
by debugRun (the shell exit code); any error returned by Execute, usage
errors included, prints the message and exits 125. -/
def mainExitCode (args : List String)
    (runE : List String → Except String Int) : Int :=
  match rootCmdExecute args runE with
  | .ok code => code
  | .error _ => 125

/-- Outcome of PullImage: either podman pull was run and its own result is
propagated, or the function returned nil without pulling, or the policy
"never" rejected a locally missing image. -/
inductive PullOutcome where
  | pullRun (success : Bool)
  | ok
  | errNotFound (image : String)
deriving DecidableEq

/-- PullImage from the podman client: policy "always" runs podman pull
unconditionally; policy "never" errors exactly when podman image exists
fails; every other policy string takes the default branch, pulling only
when the image does not exist locally.  existsLocally is the success of
podman image exists, pullOK the success of podman pull. -/
def PullImage (image policy : String) (existsLocally pullOK : Bool) : PullOutcome :=
  if policy = "always" then .pullRun pullOK
  else if policy = "never" then
    if existsLocally then .ok else .errNotFound image
  else
    if existsLocally then .ok else .pullRun pullOK

/-- Entrypoint metadata (EntrypointInfo in the podman client package). -/
structure EntrypointInfo where
  entrypoint : List String
  cmd : List String
  workingDir : String
deriving DecidableEq

/-- Go strings.Join with a single space. -/
def spaceJoin (parts : List String) : String := String.intercalate " " parts

/-- Plain-text per-field metadata files written by writeEntrypointMetadata
(the block guarded by the emptiness tests), as a list of path and content
pairs in write order.  The entrypoint.json and entrypoint.txt writes of the
same function are not modelled because no claim concerns them, and the
metadata directory creation is best-effort in the source. -/
def epMetadataPlainFiles (mergedDir : String) (ep : EntrypointInfo) :
    List (String × String) :=
  (if ep.entrypoint.length > 0 then
    [(mergedDir ++ "/.podman-debug/ep_bin", spaceJoin ep.entrypoint)] else []) ++
  (if ep.cmd.length > 0 then
    [(mergedDir ++ "/.podman-debug/ep_cmd", spaceJoin ep.cmd)] else []) ++
  (if ep.workingDir ≠ "" then
    [(mergedDir ++ "/.podman-debug/ep_workdir", ep.workingDir)] else []) ++
  (if (ep.entrypoint ++ ep.cmd).length > 0 then
    [(mergedDir ++ "/.podman-debug/ep_effective", spaceJoin (ep.entrypoint ++ ep.cmd))]
   else [])

/-- Namespace kinds used by the live session setup. -/
inductive NSKind where
  | mnt
  | pid
  | net
  | ipc
  | uts
deriving DecidableEq

/-- Mutating operations attempted by the session constructor, in the order
the code reaches them.  Each event records one syscall attempt. -/
inductive Ev where
  | unshareNS
  | setnsCall (kind : NSKind)
  | mountPrivateRoot
  | mkdirAll (path : String)
  | mountTmpfs (path : String)
  | mountOverlay (lower upper work target : String)
  | bindMount (src target : String) (recursive : Bool)
  | moveMount (target : String)
  | createFile (path : String)
deriving DecidableEq

/-- Oracle for filesystem syscalls made by the overlay, toolbox and binder
helpers: success of mkdir per path, of the tmpfs mount, of overlay mounts
per target, of bind mounts per target, of move_mount; stat results as an
optional size (none models a stat error, in particular a missing file); and
for the network-config binder whether the target is reported missing and
whether creating it succeeds. -/
structure FsSys where
  mkdirOK : String → Bool
  tmpfsOK : Bool
  overlayMountOK : String → Bool
  bindOK : String → Bool
  moveMountOK : Bool
  statSize : String → Option Nat
  targetMissing : String → Bool
  createOK : String → Bool

/-- Oracle for the namespace and process level syscalls of a session:
success of opening each target namespace file, of each setns (consulted by
the code only for the mount namespace, the others being discarded), of the
two unshare calls, of the recursive private remount of root, of open_tree,
chroot and chdir. -/
structure Sys where
  openNS : NSKind → Bool
  setnsOK : NSKind → Bool
  unshare1OK : Bool
  unshare2OK : Bool
  mountPrivOK : Bool
  openTreeOK : Bool
  chrootOK : Bool
  chdirOK : Bool
  fs : FsSys

/-- Fixed scratch path of the overlay builder. -/
def overlayBasePath : String := "/tmp/.podman-debug-overlay"

/-- Sequential creation of a list of directories, failing on the first error
as the corresponding source loop does. -/
def mkdirList (fs : FsSys) : List String → Except String Unit × List Ev
  | [] => (.ok (), [])
  | d :: rest =>
    if fs.mkdirOK d then
      let r := mkdirList fs rest
      (r.1, Ev.mkdirAll d :: r.2)
    else (.error ("creating " ++ d), [Ev.mkdirAll d])

/-- createOverlay: make the scratch base, mount a tmpfs there, create upper,
work and merged directories, mount the overlayfs at merged with the given
lower directory, and when writable immediately shadow it with a recursive
bind of the lower directory onto merged; the merged path is returned in
both cases. -/
def createOverlay (fs : FsSys) (lowerDir : String) (writable : Bool) :
    Except String String × List Ev :=
  if !fs.mkdirOK overlayBasePath then
    (.error "creating overlay base", [Ev.mkdirAll overlayBasePath])
  else if !fs.tmpfsOK then
    (.error "mounting tmpfs", [Ev.mkdirAll overlayBasePath, Ev.mountTmpfs overlayBasePath])
  else
    match mkdirList fs [overlayBasePath ++ "/upper", overlayBasePath ++ "/work",
        overlayBasePath ++ "/merged"] with
    | (.error e, t) =>
      (.error e, [Ev.mkdirAll overlayBasePath, Ev.mountTmpfs overlayBasePath] ++ t)
    | (.ok _, t) =>
      let pre := [Ev.mkdirAll overlayBasePath, Ev.mountTmpfs overlayBasePath] ++ t ++
        [Ev.mountOverlay lowerDir (overlayBasePath ++ "/upper")
          (overlayBasePath ++ "/work") (overlayBasePath ++ "/merged")]
      if !fs.overlayMountOK (overlayBasePath ++ "/merged") then
        (.error "mounting overlay", pre)
      else if writable then
        let pre2 := pre ++ [Ev.bindMount lowerDir (overlayBasePath ++ "/merged") true]
        if !fs.bindOK (overlayBasePath ++ "/merged") then
          (.error "rebinding root into overlay", pre2)
        else (.ok (overlayBasePath ++ "/merged"), pre2)
      else (.ok (overlayBasePath ++ "/merged"), pre)

/-- mountNixStore: create the landing directory, move the detached toolbox
tree there, create the nix upper and work directories, and mount the
toolbox overlay at the given mount point. -/
def mountNixStore (fs : FsSys) (nixMountPoint base : String) :
    Except String Unit × List Ev :=
  if !fs.mkdirOK (base ++ "/nix-lower") then
    (.error "creating nix temp mount", [Ev.mkdirAll (base ++ "/nix-lower")])
  else if !fs.moveMountOK then
    (.error "move_mount nix to temp",
      [Ev.mkdirAll (base ++ "/nix-lower"), Ev.moveMount (base ++ "/nix-lower")])
  else
    match mkdirList fs [base ++ "/nix-upper", base ++ "/nix-work"] with
    | (.error e, t) =>
      (.error e, [Ev.mkdirAll (base ++ "/nix-lower"), Ev.moveMount (base ++ "/nix-lower")] ++ t)
    | (.ok _, t) =>
      let pre := [Ev.mkdirAll (base ++ "/nix-lower"), Ev.moveMount (base ++ "/nix-lower")] ++ t ++
        [Ev.mountOverlay (base ++ "/nix-lower") (base ++ "/nix-upper")
          (base ++ "/nix-work") nixMountPoint]
      if !fs.overlayMountOK nixMountPoint then (.error "mounting nix overlay", pre)
      else (.ok (), pre)

/-- Directory part of a path, as filepath.Dir behaves on the slash separated
paths used here: everything before the final slash. -/
def dirOf (p : String) : String :=
  let s := p.dropRightWhile (fun c => c ≠ '/')
  if s.length ≤ 1 then s else s.dropRight 1

/-- The three network configuration files handled by the binder. -/
def netConfigFiles : List String := ["/etc/resolv.conf", "/etc/hosts", "/etc/hostname"]

/-- Body of the bindNetworkConfig loop for one configuration file: a stat
error or a zero size skips the file entirely; otherwise the parent directory
of the target is created (a failure skipping the file), the target is
created as an empty placeholder when reported missing (a creation failure
skipping the file), and the source is bind mounted onto the target. -/
def bindNetCfgFile (fs : FsSys) (mergedDir configFile : String) : List Ev :=
  match fs.statSize configFile with
  | none => []
  | some size =>
    if size = 0 then []
    else
      if !fs.mkdirOK (dirOf (mergedDir ++ configFile)) then
        [Ev.mkdirAll (dirOf (mergedDir ++ configFile))]
      else if fs.targetMissing (mergedDir ++ configFile) then
        if !fs.createOK (mergedDir ++ configFile) then
          [Ev.mkdirAll (dirOf (mergedDir ++ configFile)),
           Ev.createFile (mergedDir ++ configFile)]
        else
          [Ev.mkdirAll (dirOf (mergedDir ++ configFile)),
           Ev.createFile (mergedDir ++ configFile),
           Ev.bindMount configFile (mergedDir ++ configFile) false]
      else
        [Ev.mkdirAll (dirOf (mergedDir ++ configFile)),
         Ev.bindMount configFile (mergedDir ++ configFile) false]

/-- bindNetworkConfig: the loop body applied to the three files in order. -/
def bindNetworkConfig (fs : FsSys) (mergedDir : String) : List Ev :=
  (netConfigFiles.map (bindNetCfgFile fs mergedDir)).flatten

/-- One iteration of the bindHostMounts loop: a stat error skips the mount
point, a mkdir failure skips it, otherwise the source is recursively bind
mounted into the merged view.  All results are discarded by the source. -/
def bindHostMountOne (fs : FsSys) (mergedDir mp : String) : List Ev :=
  if (fs.statSize mp).isNone then []
  else if !fs.mkdirOK (mergedDir ++ mp) then [Ev.mkdirAll (mergedDir ++ mp)]
  else [Ev.mkdirAll (mergedDir ++ mp), Ev.bindMount mp (mergedDir ++ mp) true]

/-- bindHostMounts, the live variant of the host resource binder: proc, sys
and dev are bound recursively, then the network configuration files. -/
def bindHostMounts (fs : FsSys) (mergedDir : String) : List Ev :=
  bindHostMountOne fs mergedDir "/proc" ++ bindHostMountOne fs mergedDir "/sys" ++
    bindHostMountOne fs mergedDir "/dev" ++ bindNetworkConfig fs mergedDir

/-- bindSnapshotMounts, the snapshot variant: an empty proc mount point is
created (result discarded), sys and dev are bound, then the network
configuration files. -/
def bindSnapshotMounts (fs : FsSys) (mergedDir : String) : List Ev :=
  [Ev.mkdirAll (mergedDir ++ "/proc")] ++ bindHostMountOne fs mergedDir "/sys" ++
    bindHostMountOne fs mergedDir "/dev" ++ bindNetworkConfig fs mergedDir

/-- setupLiveMode: the mount namespace file of the target is opened first (a
failure being fatal); the remaining namespace files are opened in the map
iteration order, failures silently dropping the entry; then unshare of a
new mount namespace, the setns into the PID namespace when its file was
opened (result discarded), setns into the mount namespace (checked), a
second unshare and the recursive private remount of root, the discarded
setns calls for the remaining namespaces in iteration order, the root
overlay on lower directory "/", and the nix mount point and toolbox graft;
in read-only mode the host resource binder runs last.  mapOrder is the Go
map iteration order over the five namespace entries. -/
def setupLiveMode (sys : Sys) (mapOrder : List NSKind) (writable : Bool) :
    Except String String × List Ev :=
  if !sys.openNS NSKind.mnt then (.error "opening mount namespace", [])
  else
    let optionalNS := mapOrder.filter (fun k => decide (k ≠ NSKind.mnt) && sys.openNS k)
    if !sys.unshare1OK then (.error "unshare mount namespace", [Ev.unshareNS])
    else
      let t1 := [Ev.unshareNS] ++
        (if NSKind.pid ∈ optionalNS then [Ev.setnsCall NSKind.pid] else []) ++
        [Ev.setnsCall NSKind.mnt]
      if !sys.setnsOK NSKind.mnt then (.error "joining mount namespace", t1)
      else
        let t2 := t1 ++ [Ev.unshareNS]
        if !sys.unshare2OK then (.error "unshare mount namespace (private copy)", t2)
        else
          let t3 := t2 ++ [Ev.mountPrivateRoot]
          if !sys.mountPrivOK then (.error "making / private", t3)
          else
            let t4 := t3 ++
              (optionalNS.filter (fun k => decide (k ≠ NSKind.pid))).map Ev.setnsCall
            match createOverlay sys.fs "/" writable with
            | (.error e, tc) => (.error e, t4 ++ tc)
            | (.ok mergedDir, tc) =>
              let t5 := t4 ++ tc ++ [Ev.mkdirAll (mergedDir ++ "/nix")]
              if !sys.fs.mkdirOK (mergedDir ++ "/nix") then
                (.error (if writable then "creating /nix" else "creating /nix in overlay"), t5)
              else
                match mountNixStore sys.fs (mergedDir ++ "/nix") overlayBasePath with
                | (.error e, tn) => (.error e, t5 ++ tn)
                | (.ok _, tn) =>
                  if writable then (.ok mergedDir, t5 ++ tn)
                  else (.ok mergedDir, t5 ++ tn ++ bindHostMounts sys.fs mergedDir)

/-- Result of a whole session: exit code, error, whether the shell was
spawned at all, and whether the PTY path was used. -/
structure SessionResult where
  exitCode : Int
  err : Option String
  shellSpawned : Bool
  usedPty : Bool
deriving DecidableEq

/-- ExecLive: open_tree of the toolbox nix path, live setup, chroot and
chdir into the merged view, then the shell runs via runShell with the
interactive flag set to emptiness of the shell argument list.  Every
failure before the spawn is sent as exit code 125 with the error. -/
def ExecLive (sys : Sys) (mapOrder : List NSKind) (writable : Bool)
    (stdinPresent : Bool) (shellArgs : List String)
    (ptyStartOK : Bool) (wait : WaitOutcome) : SessionResult :=
  if !sys.openTreeOK then ⟨125, some "open_tree", false, false⟩
  else
    match (setupLiveMode sys mapOrder writable).1 with
    | .error e => ⟨125, some e, false, false⟩
    | .ok _ =>
      if !sys.chrootOK then ⟨125, some "chroot to overlay", false, false⟩
      else if !sys.chdirOK then ⟨125, some "chdir to /", false, false⟩
      else
        let r := runShell stdinPresent shellArgs.isEmpty ptyStartOK wait
        ⟨r.exitCode, r.err, true, r.usedPty⟩

/-- setupSnapshotMode: root overlay on the host mount point, never writable,
then the nix mount point, the toolbox graft and the snapshot variant of the
host resource binder. -/
def setupSnapshotMode (fs : FsSys) (hostMountpoint : String) :
    Except String String × List Ev :=
  match createOverlay fs hostMountpoint false with
  | (.error e, t) => (.error e, t)
  | (.ok mergedDir, t) =>
    let t1 := t ++ [Ev.mkdirAll (mergedDir ++ "/nix")]
    if !fs.mkdirOK (mergedDir ++ "/nix") then (.error "creating /nix in overlay", t1)
    else
      match mountNixStore fs (mergedDir ++ "/nix") overlayBasePath with
      | (.error e, tn) => (.error e, t1 ++ tn)
      | (.ok _, tn) => (.ok mergedDir, t1 ++ tn ++ bindSnapshotMounts fs mergedDir)

/-- ExecSnapshot: open_tree, unshare of a fresh mount namespace, private
remount of root, snapshot setup, chroot and chdir, then the shell (wrapped
in a new PID namespace by the source) runs via runShell with the
interactive flag set to emptiness of the shell argument list.  Every
failure before the spawn is sent as exit code 125 with the error. -/
def ExecSnapshot (sys : Sys) (hostMountpoint : String)
    (stdinPresent : Bool) (shellArgs : List String)
    (ptyStartOK : Bool) (wait : WaitOutcome) : SessionResult :=
  if !sys.openTreeOK then ⟨125, some "open_tree", false, false⟩
  else if !sys.unshare1OK then ⟨125, some "unshare mount namespace", false, false⟩
  else if !sys.mountPrivOK then ⟨125, some "making / private", false, false⟩
  else
    match (setupSnapshotMode sys.fs hostMountpoint).1 with
    | .error e => ⟨125, some e, false, false⟩
    | .ok _ =>
      if !sys.chrootOK then ⟨125, some "chroot to overlay", false, false⟩
      else if !sys.chdirOK then ⟨125, some "chdir to /", false, false⟩
      else
        let r := runShell stdinPresent shellArgs.isEmpty ptyStartOK wait
        ⟨r.exitCode, r.err, true, r.usedPty⟩

/-- Fully succeeding filesystem oracle, used by witnesses. -/
def allOkFs : FsSys where
  mkdirOK := fun _ => true
  tmpfsOK := true
  overlayMountOK := fun _ => true
  bindOK := fun _ => true
  moveMountOK := true
  statSize := fun _ => some 1
  targetMissing := fun _ => true
  createOK := fun _ => true

/-- Fully succeeding syscall oracle, used by witnesses. -/
def allOkSys : Sys where
  openNS := fun _ => true
  setnsOK := fun _ => true
  unshare1OK := true
  unshare2OK := true
  mountPrivOK := true
  openTreeOK := true
  chrootOK := true
  chdirOK := true
  fs := allOkFs

/-- C1: the dispatcher inspects the reference as a container first; when the
inspection fails, image mode is attempted exactly when the error message
contains one of the three NotFound substrings, any other inspection error
being returned unchanged with no image attempt; when inspection succeeds,
states running and paused select the live session, states stopped, exited,
created and configured select the snapshot session, and any other state
yields an unsupported-state error. -/
theorem c1_dispatcher_selection_policy (e ref : String) (ctr : ContainerInfo)
    (runLive : Int → Except String Int) (runSnapshot : Unit → Except String Int)
    (tryImg : Except String Int) :
    ((debugRunDispatch ref (tryContainerDebug (.error e) runLive runSnapshot) tryImg).triedImage
        ↔ (strContains e "no container with name or ID" ||
           strContains e "no such container" ||
           strContains e "inspecting container") = true)
    ∧ ((strContains e "no container with name or ID" ||
        strContains e "no such container" ||
        strContains e "inspecting container") = false →
        debugRunDispatch ref (tryContainerDebug (.error e) runLive runSnapshot) tryImg
          = ⟨.error e, false⟩)
    ∧ (ctr.state = "running" ∨ ctr.state = "paused" →
        tryContainerDebug (.ok ctr) runLive runSnapshot = runLive ctr.pid)
    ∧ (ctr.state = "stopped" ∨ ctr.state = "exited" ∨
        ctr.state = "created" ∨ ctr.state = "configured" →
        tryContainerDebug (.ok ctr) runLive runSnapshot = runSnapshot ())
    ∧ (ctr.state ≠ "running" → ctr.state ≠ "paused" → ctr.state ≠ "stopped" →
        ctr.state ≠ "exited" → ctr.state ≠ "created" → ctr.state ≠ "configured" →
        tryContainerDebug (.ok ctr) runLive runSnapshot
          = .error ("container is in unsupported state: " ++ ctr.state)) := by
  refine ⟨?_, ?_, ?_, ?_, ?_⟩
  · cases hb : (strContains e "no container with name or ID" ||
        strContains e "no such container" || strContains e "inspecting container") with
    | false =>
      simp [debugRunDispatch, tryContainerDebug, isNotFound, hb]
    | true =>
      cases tryImg <;>
        simp [debugRunDispatch, tryContainerDebug, isNotFound, hb]
  · intro h
    simp [debugRunDispatch, tryContainerDebug, isNotFound, h]
  · intro h
    rcases h with h | h <;> simp [tryContainerDebug, h]
  · intro h
    rcases h with h | h | h | h <;> simp [tryContainerDebug, h]
  · intro h1 h2 h3 h4 h5 h6
    simp [tryContainerDebug, h1, h2, h3, h4, h5, h6]

/-- Witness for C1 at concrete inputs: an inspection error carrying the text
"no such container" falls through to image mode, and a running container
selects the live session. -/
theorem c1_dispatcher_selection_policy_witness :
    (debugRunDispatch "foo"
        (tryContainerDebug (.error "no such container foo")
          (fun p => .ok p) (fun _ => .ok 7)) (.ok 3)).triedImage
    ∧ tryContainerDebug (.ok ⟨"id0", "running", 42⟩) (fun p => .ok p) (fun _ => .ok 7)
        = .ok 42 := by
  have h := c1_dispatcher_selection_policy "no such container foo" "foo"
    ⟨"id0", "running", 42⟩ (fun p => .ok p) (fun _ => .ok 7) (.ok 3)
  refine ⟨h.1.mpr (by decide), ?_⟩
  have h3 := h.2.2.1 (Or.inl rfl)
  simpa using h3

/-- Left cancellation of string concatenation, used to distinguish metadata
file paths that share the merged directory prefix. -/
theorem strAppendLeftCancel (m s1 s2 : String) (h : m ++ s1 = m ++ s2) : s1 = s2 := by
  have hd := congrArg String.data h
  simp only [String.data_append] at hd
  exact String.ext (List.append_cancel_left hd)

/-- C2 counterexample: invoking the binary with no positional argument is a
usage error (the root command requires at least one argument); main prints
the error and exits 125, not 1 as the claim states for usage errors. -/
theorem c2_usage_exit_code_counterexample :
    mainExitCode [] (fun _ => .ok 0) = 125
    ∧ mainExitCode [] (fun _ => .ok 0) ≠ 1 := by decide

/-- C2 (amended): the process exit code is the shell exit code on success;
every internal setup or spawn failure of the session constructor produces
exit code 125 (the session runner sends exit code 125 together with the
error on every failure path, and runShell maps spawn failures to 125); and
usage errors also produce exit code 125, with no distinct code 1. -/
theorem c2_exit_codes_amended (args : List String)
    (runE : List String → Except String Int) (code : Int) (e : String)
    (sys : Sys) (mapOrder : List NSKind) (writable stdinPresent ptyStartOK : Bool)
    (shellArgs : List String) (wait : WaitOutcome) (host : String) :
    (args ≠ [] → runE args = .ok code → mainExitCode args runE = code)
    ∧ (args ≠ [] → runE args = .error e → mainExitCode args runE = 125)
    ∧ (args = [] → mainExitCode args runE = 125)
    ∧ (stdinPresent = true → shellArgs = [] → ptyStartOK = false →
        (runShell stdinPresent shellArgs.isEmpty ptyStartOK wait).exitCode = 125)
    ∧ ((stdinPresent && shellArgs.isEmpty) = false → wait = .waitErr e →
        (runShell stdinPresent shellArgs.isEmpty ptyStartOK wait).exitCode = 125)
    ∧ (sys.openTreeOK = true → (setupLiveMode sys mapOrder writable).1 = .error e →
        ExecLive sys mapOrder writable stdinPresent shellArgs ptyStartOK wait
          = ⟨125, some e, false, false⟩)
    ∧ (sys.openTreeOK = true → sys.unshare1OK = true → sys.mountPrivOK = true →
        (setupSnapshotMode sys.fs host).1 = .error e →
        ExecSnapshot sys host stdinPresent shellArgs ptyStartOK wait
          = ⟨125, some e, false, false⟩) := by
  refine ⟨?_, ?_, ?_, ?_, ?_, ?_, ?_⟩
  · intro ha hr
    cases args with
    | nil => exact absurd rfl ha
    | cons x xs => simp [mainExitCode, rootCmdExecute, minimumNArgsErr, hr]
  · intro ha hr
    cases args with
    | nil => exact absurd rfl ha
    | cons x xs => simp [mainExitCode, rootCmdExecute, minimumNArgsErr, hr]
  · intro ha
    subst ha
    simp [mainExitCode, rootCmdExecute, minimumNArgsErr]
  · intro hs hg hp
    subst hs; subst hg; subst hp
    simp [runShell]
  · intro hni hw
    subst hw
    simp [runShell, hni]
  · intro htree hsetup
    simp [ExecLive, htree, hsetup]
  · intro htree h1 hmp hsetup
    simp [ExecSnapshot, htree, h1, hmp, hsetup]

/-- Witness for C2 (amended) at concrete inputs: a successful run propagates
the shell exit code 7, an error returned by the run body exits 125, an
empty argument list exits 125, and both spawn failure shapes of runShell
yield 125. -/
theorem c2_exit_codes_amended_witness :
    mainExitCode ["ctr"] (fun _ => .ok 7) = 7
    ∧ mainExitCode ["ctr"] (fun _ => .error "mounting debug image") = 125
    ∧ mainExitCode [] (fun _ => .ok 0) = 125
    ∧ (runShell true ([] : List String).isEmpty false (.exited 0)).exitCode = 125
    ∧ (runShell false (["-c", "id"] : List String).isEmpty true
        (.waitErr "exec format error")).exitCode = 125 := by
  refine ⟨?_, ?_, ?_, ?_, ?_⟩
  · exact (c2_exit_codes_amended ["ctr"] (fun _ => .ok 7) 7 "" allOkSys [] false false
      false [] (.exited 0) "").1 (by simp) rfl
  · exact (c2_exit_codes_amended ["ctr"] (fun _ => .error "mounting debug image") 0
      "mounting debug image" allOkSys [] false false false [] (.exited 0) "").2.1
      (by simp) rfl
  · exact (c2_exit_codes_amended [] (fun _ => .ok 0) 0 "" allOkSys [] false false
      false [] (.exited 0) "").2.2.1 rfl
  · exact (c2_exit_codes_amended [] (fun _ => .ok 0) 0 "" allOkSys [] false true
      false [] (.exited 0) "").2.2.2.1 rfl rfl rfl
  · exact (c2_exit_codes_amended [] (fun _ => .ok 0) 0 "exec format error" allOkSys []
      false false true ["-c", "id"] (.waitErr "exec format error") "").2.2.2.2.1
      rfl rfl

/-- C7 counterexample: with an empty shell argument list and a present stdin
handle that is not a terminal (resolveStreams attaches stdin whenever the
interactive flag is set, terminal or not), runShell takes the PTY
interactive path, although the claimed selection condition (stdin is a
terminal) is false there. -/
theorem c7_interactive_counterexample :
    (runShell (resolveStreamsStdinPresent true) ([] : List String).isEmpty true
      (.exited 0)).usedPty = true
    ∧ specInteractiveSelection false ([] : List String) = false := by decide

/-- C7 (amended): the interactive PTY path is taken exactly when the shell
argument list is empty and the stdin stream handle is present; whether
stdin is a terminal plays no role in the selection; in every other case the
non-interactive path inheriting the three stream handles is taken. -/
theorem c7_interactive_amended (stdinPresent ptyStartOK : Bool)
    (shellArgs : List String) (wait : WaitOutcome) :
    (runShell stdinPresent shellArgs.isEmpty ptyStartOK wait).usedPty
      = (stdinPresent && shellArgs.isEmpty) := by
  cases stdinPresent <;> cases shellArgs <;> cases ptyStartOK <;> cases wait <;>
    simp [runShell]

/-- C8 counterexample: a metadata record with an empty entrypoint list and
an empty working directory is written without ep_bin and ep_workdir files,
while its ep_cmd file is written; so not every record produces all four
files. -/
theorem c8_ep_files_counterexample :
    (epMetadataPlainFiles "" ⟨[], ["run"], ""⟩).lookup "/.podman-debug/ep_bin" = none
    ∧ (epMetadataPlainFiles "" ⟨[], ["run"], ""⟩).lookup "/.podman-debug/ep_workdir" = none
    ∧ (epMetadataPlainFiles "" ⟨[], ["run"], ""⟩).lookup "/.podman-debug/ep_cmd"
        = some "run" := by decide

/-- C10: PullImage never rejects a policy string as invalid: every policy
other than "always" and "never" takes the default branch and behaves as
"missing" (pulling only when the image is absent locally, never the
not-found error); "always" always runs the pull; "never" errors exactly
when the image does not exist locally. -/
theorem c10_pull_policy (image policy : String) (existsLocally pullOK : Bool)
    (h1 : policy ≠ "always") (h2 : policy ≠ "never") :
    PullImage image policy existsLocally pullOK
      = (if existsLocally then .ok else .pullRun pullOK)
    ∧ PullImage image policy existsLocally pullOK
      = PullImage image "missing" existsLocally pullOK
    ∧ (∀ img, PullImage image policy existsLocally pullOK ≠ .errNotFound img)
    ∧ PullImage image "always" existsLocally pullOK = .pullRun pullOK
    ∧ (PullImage image "never" existsLocally pullOK = .errNotFound image
        ↔ existsLocally = false) := by
  refine ⟨?_, ?_, ?_, ?_, ?_⟩
  · simp [PullImage, h1, h2]
  · cases existsLocally <;> simp [PullImage, h1, h2]
  · intro img
    cases existsLocally <;> simp [PullImage, h1, h2]
  · simp [PullImage]
  · cases existsLocally <;> simp [PullImage]

/-- Witness for C10 at concrete inputs: the unrecognized policy "sometimes"
is treated as "missing", pulling exactly when the image is absent. -/
theorem c10_pull_policy_witness :
    PullImage "nginx:latest" "sometimes" false true = .pullRun true
    ∧ PullImage "nginx:latest" "sometimes" true true = .ok
    ∧ PullImage "nginx:latest" "never" false true = .errNotFound "nginx:latest" := by
  have ha := c10_pull_policy "nginx:latest" "sometimes" false true
    (by decide) (by decide)
  have hb := c10_pull_policy "nginx:latest" "sometimes" true true
    (by decide) (by decide)
  refine ⟨?_, ?_, ?_⟩
  · simpa using ha.1
  · simpa using hb.1
  · exact ha.2.2.2.2.mpr rfl

/-- C8 (amended): each of the four plain-text metadata files is written if
and only if its field is non-empty (ep_effective exactly when the
concatenation of entrypoint and cmd is non-empty), and each written file
contains its field space-joined, ep_effective containing the entrypoint
list followed by the cmd list space-joined. -/
theorem c8_ep_files_amended (m : String) (ep : EntrypointInfo) :
    (epMetadataPlainFiles m ep).lookup (m ++ "/.podman-debug/ep_bin")
      = (if ep.entrypoint ≠ [] then some (spaceJoin ep.entrypoint) else none)
    ∧ (epMetadataPlainFiles m ep).lookup (m ++ "/.podman-debug/ep_cmd")
      = (if ep.cmd ≠ [] then some (spaceJoin ep.cmd) else none)
    ∧ (epMetadataPlainFiles m ep).lookup (m ++ "/.podman-debug/ep_workdir")
      = (if ep.workingDir ≠ "" then some ep.workingDir else none)
    ∧ (epMetadataPlainFiles m ep).lookup (m ++ "/.podman-debug/ep_effective")
      = (if ep.entrypoint ++ ep.cmd ≠ [] then some (spaceJoin (ep.entrypoint ++ ep.cmd))
         else none) := by
  have key : ∀ s1 s2 : String, s1 ≠ s2 → ((m ++ s1) == (m ++ s2)) = false := by
    intro s1 s2 hne
    exact beq_eq_false_iff_ne.mpr (fun h => hne (strAppendLeftCancel m s1 s2 h))
  have h12 := key "/.podman-debug/ep_bin" "/.podman-debug/ep_cmd" (by decide)
  have h13 := key "/.podman-debug/ep_bin" "/.podman-debug/ep_workdir" (by decide)
  have h14 := key "/.podman-debug/ep_bin" "/.podman-debug/ep_effective" (by decide)
  have h21 := key "/.podman-debug/ep_cmd" "/.podman-debug/ep_bin" (by decide)
  have h23 := key "/.podman-debug/ep_cmd" "/.podman-debug/ep_workdir" (by decide)
  have h24 := key "/.podman-debug/ep_cmd" "/.podman-debug/ep_effective" (by decide)
  have h31 := key "/.podman-debug/ep_workdir" "/.podman-debug/ep_bin" (by decide)
  have h32 := key "/.podman-debug/ep_workdir" "/.podman-debug/ep_cmd" (by decide)
  have h34 := key "/.podman-debug/ep_workdir" "/.podman-debug/ep_effective" (by decide)
  have h41 := key "/.podman-debug/ep_effective" "/.podman-debug/ep_bin" (by decide)
  have h42 := key "/.podman-debug/ep_effective" "/.podman-debug/ep_cmd" (by decide)
  have h43 := key "/.podman-debug/ep_effective" "/.podman-debug/ep_workdir" (by decide)
  by_cases h1 : ep.entrypoint = [] <;> by_cases h2 : ep.cmd = [] <;>
    by_cases h3 : ep.workingDir = "" <;>
    simp [epMetadataPlainFiles, h1, h2, h3, List.lookup, List.length_pos,
      h12, h13, h14, h21, h23, h24, h31, h32, h34, h41, h42, h43]

/-- C5: for every lower directory and both values of the writable flag, a
successful createOverlay returns the merged path under the scratch base;
with writable true the overlayfs is still mounted at merged and then
immediately shadowed by a recursive bind of the lower directory onto
merged, leaving the returned path unchanged. -/
theorem c5_create_overlay_writable (fs : FsSys) (lowerDir : String) (writable : Bool)
    (hmk : ∀ p, fs.mkdirOK p = true) (ht : fs.tmpfsOK = true)
    (hov : fs.overlayMountOK (overlayBasePath ++ "/merged") = true)
    (hb : fs.bindOK (overlayBasePath ++ "/merged") = true) :
    (createOverlay fs lowerDir writable).1 = .ok (overlayBasePath ++ "/merged")
    ∧ (createOverlay fs lowerDir true).2
      = [Ev.mkdirAll overlayBasePath, Ev.mountTmpfs overlayBasePath,
         Ev.mkdirAll (overlayBasePath ++ "/upper"), Ev.mkdirAll (overlayBasePath ++ "/work"),
         Ev.mkdirAll (overlayBasePath ++ "/merged"),
         Ev.mountOverlay lowerDir (overlayBasePath ++ "/upper")
           (overlayBasePath ++ "/work") (overlayBasePath ++ "/merged"),
         Ev.bindMount lowerDir (overlayBasePath ++ "/merged") true]
    ∧ (createOverlay fs lowerDir false).2
      = [Ev.mkdirAll overlayBasePath, Ev.mountTmpfs overlayBasePath,
         Ev.mkdirAll (overlayBasePath ++ "/upper"), Ev.mkdirAll (overlayBasePath ++ "/work"),
         Ev.mkdirAll (overlayBasePath ++ "/merged"),
         Ev.mountOverlay lowerDir (overlayBasePath ++ "/upper")
           (overlayBasePath ++ "/work") (overlayBasePath ++ "/merged")] := by
  refine ⟨?_, ?_, ?_⟩
  · cases writable <;> simp [createOverlay, mkdirList, hmk, ht, hov, hb]
  · simp [createOverlay, mkdirList, hmk, ht, hov, hb]
  · simp [createOverlay, mkdirList, hmk, ht, hov, hb]

/-- Witness for C5 at concrete inputs: with a fully succeeding filesystem
oracle and lower directory "/", both writable values return the merged
path, and the writable trace ends in the shadowing bind mount. -/
theorem c5_create_overlay_writable_witness :
    (createOverlay allOkFs "/" true).1 = .ok (overlayBasePath ++ "/merged")
    ∧ (createOverlay allOkFs "/" false).1 = .ok (overlayBasePath ++ "/merged")
    ∧ (createOverlay allOkFs "/" true).2
      = [Ev.mkdirAll overlayBasePath, Ev.mountTmpfs overlayBasePath,
         Ev.mkdirAll (overlayBasePath ++ "/upper"), Ev.mkdirAll (overlayBasePath ++ "/work"),
         Ev.mkdirAll (overlayBasePath ++ "/merged"),
         Ev.mountOverlay "/" (overlayBasePath ++ "/upper")
           (overlayBasePath ++ "/work") (overlayBasePath ++ "/merged"),
         Ev.bindMount "/" (overlayBasePath ++ "/merged") true] := by
  have hT := c5_create_overlay_writable allOkFs "/" true
    (fun p => rfl) rfl rfl rfl
  have hF := c5_create_overlay_writable allOkFs "/" false
    (fun p => rfl) rfl rfl rfl
  exact ⟨hT.1, hF.1, hT.2.1⟩

/-- C4: in a live session, failure to open the target mount namespace file
is fatal: setup returns an error, the session exits 125 and no shell is
spawned; whereas with the mount namespace file open, setup succeeds and the
shell is spawned regardless of whether the pid, net, ipc or uts namespace
files could be opened (no hypothesis constrains them). -/
theorem c4_mnt_open_fatal_others_tolerated (sys : Sys) (mapOrder : List NSKind)
    (writable stdinPresent ptyStartOK : Bool) (shellArgs : List String)
    (wait : WaitOutcome)
    (htree : sys.openTreeOK = true)
    (h1 : sys.unshare1OK = true) (hsm : sys.setnsOK NSKind.mnt = true)
    (h2 : sys.unshare2OK = true) (hmp : sys.mountPrivOK = true)
    (hmk : ∀ p, sys.fs.mkdirOK p = true) (ht : sys.fs.tmpfsOK = true)
    (hov : ∀ p, sys.fs.overlayMountOK p = true) (hb : ∀ p, sys.fs.bindOK p = true)
    (hmv : sys.fs.moveMountOK = true)
    (hchr : sys.chrootOK = true) (hchd : sys.chdirOK = true) :
    (sys.openNS NSKind.mnt = false →
      (setupLiveMode sys mapOrder writable).1 = .error "opening mount namespace"
      ∧ (ExecLive sys mapOrder writable stdinPresent shellArgs ptyStartOK
          wait).shellSpawned = false
      ∧ (ExecLive sys mapOrder writable stdinPresent shellArgs ptyStartOK
          wait).exitCode = 125)
    ∧ (sys.openNS NSKind.mnt = true →
      (setupLiveMode sys mapOrder writable).1 = .ok (overlayBasePath ++ "/merged")
      ∧ (ExecLive sys mapOrder writable stdinPresent shellArgs ptyStartOK
          wait).shellSpawned = true) := by
  constructor
  · intro hm
    have hs : (setupLiveMode sys mapOrder writable).1 = .error "opening mount namespace" := by
      simp [setupLiveMode, hm]
    refine ⟨hs, ?_, ?_⟩ <;> simp [ExecLive, htree, hs]
  · intro hm
    have hs : (setupLiveMode sys mapOrder writable).1 = .ok (overlayBasePath ++ "/merged") := by
      cases writable <;>
        simp [setupLiveMode, createOverlay, mountNixStore, mkdirList,
          hm, h1, hsm, h2, hmp, hmk, ht, hov, hb, hmv]
    refine ⟨hs, ?_⟩
    simp [ExecLive, htree, hs, hchr, hchd]

/-- Oracle in which every namespace file except mnt fails to open, all
other syscalls succeeding; used by the C4 witness. -/
def onlyMntOpensSys : Sys :=
  { allOkSys with openNS := fun k => decide (k = NSKind.mnt) }

/-- Oracle in which the mnt namespace file fails to open, all other
syscalls succeeding; used by the C4 witness. -/
def noMntOpenSys : Sys :=
  { allOkSys with openNS := fun k => decide (k ≠ NSKind.mnt) }

/-- Witness for C4 at concrete inputs: with only the mnt namespace file
failing to open the session aborts with exit 125 and no shell, and with
every optional namespace file failing but mnt open the shell is spawned. -/
theorem c4_mnt_open_fatal_others_tolerated_witness :
    (ExecLive noMntOpenSys [NSKind.mnt, NSKind.pid, NSKind.net, NSKind.ipc, NSKind.uts]
      false true [] true (.exited 0)).shellSpawned = false
    ∧ (ExecLive noMntOpenSys [NSKind.mnt, NSKind.pid, NSKind.net, NSKind.ipc, NSKind.uts]
      false true [] true (.exited 0)).exitCode = 125
    ∧ (ExecLive onlyMntOpensSys [NSKind.mnt, NSKind.pid, NSKind.net, NSKind.ipc, NSKind.uts]
      false true [] true (.exited 0)).shellSpawned = true := by
  have hno := c4_mnt_open_fatal_others_tolerated noMntOpenSys
    [NSKind.mnt, NSKind.pid, NSKind.net, NSKind.ipc, NSKind.uts]
    false true true [] (.exited 0) rfl rfl rfl rfl rfl (fun p => rfl) rfl
    (fun p => rfl) (fun p => rfl) rfl rfl rfl
  have honly := c4_mnt_open_fatal_others_tolerated onlyMntOpensSys
    [NSKind.mnt, NSKind.pid, NSKind.net, NSKind.ipc, NSKind.uts]
    false true true [] (.exited 0) rfl rfl rfl rfl rfl (fun p => rfl) rfl
    (fun p => rfl) (fun p => rfl) rfl rfl rfl
  exact ⟨(hno.1 (by decide)).2.1, (hno.1 (by decide)).2.2, (honly.2 (by decide)).2⟩

/-- C9: the results of the discarded setns calls for the pid, net, ipc and
uts namespaces never influence a live session: changing their outcomes in
the oracle (keeping the checked mnt outcome fixed) changes neither the
setup result and trace nor the whole session result, so the session
proceeds to spawn the shell without error or warning; only a failed setns
into the mount namespace aborts the session. -/
theorem c9_optional_setns_ignored (sys : Sys) (f : NSKind → Bool)
    (mapOrder : List NSKind) (writable stdinPresent ptyStartOK : Bool)
    (shellArgs : List String) (wait : WaitOutcome)
    (hmnt : f NSKind.mnt = sys.setnsOK NSKind.mnt) :
    setupLiveMode { sys with setnsOK := f } mapOrder writable
      = setupLiveMode sys mapOrder writable
    ∧ ExecLive { sys with setnsOK := f } mapOrder writable stdinPresent shellArgs
        ptyStartOK wait
      = ExecLive sys mapOrder writable stdinPresent shellArgs ptyStartOK wait
    ∧ (sys.setnsOK NSKind.mnt = false → sys.openNS NSKind.mnt = true →
        sys.unshare1OK = true →
        (setupLiveMode sys mapOrder writable).1 = .error "joining mount namespace") := by
  have hsetup : setupLiveMode { sys with setnsOK := f } mapOrder writable
      = setupLiveMode sys mapOrder writable := by
    simp [setupLiveMode, hmnt]
  refine ⟨hsetup, ?_, ?_⟩
  · simp [ExecLive, hsetup]
  · intro hsm hm h1
    simp [setupLiveMode, hsm, hm, h1]

/-- Oracle in which every setns call fails, all other syscalls succeeding;
used by the C9 witness. -/
def noSetnsSys : Sys := { allOkSys with setnsOK := fun _ => false }

/-- Witness for C9 at concrete inputs: flipping every optional setns
outcome to failure while keeping the mnt outcome leaves the whole live
session unchanged, and a failing mnt setns aborts setup. -/
theorem c9_optional_setns_ignored_witness :
    ExecLive { allOkSys with setnsOK := fun k => decide (k = NSKind.mnt) }
        [NSKind.mnt, NSKind.pid, NSKind.net, NSKind.ipc, NSKind.uts] false true []
        true (.exited 0)
      = ExecLive allOkSys [NSKind.mnt, NSKind.pid, NSKind.net, NSKind.ipc, NSKind.uts]
        false true [] true (.exited 0)
    ∧ (setupLiveMode noSetnsSys [NSKind.mnt, NSKind.pid, NSKind.net, NSKind.ipc, NSKind.uts]
        false).1 = .error "joining mount namespace" := by
  have ha := c9_optional_setns_ignored allOkSys (fun k => decide (k = NSKind.mnt))
    [NSKind.mnt, NSKind.pid, NSKind.net, NSKind.ipc, NSKind.uts] false true true []
    (.exited 0) rfl
  have hb := c9_optional_setns_ignored noSetnsSys (fun _ => false)
    [NSKind.mnt, NSKind.pid, NSKind.net, NSKind.ipc, NSKind.uts] false true true []
    (.exited 0) rfl
  exact ⟨ha.2.1, hb.2.2 rfl rfl rfl⟩

/-- C6: for each of the three network configuration files, provided the
incidental directory creation and placeholder creation succeed, the binder
bind-mounts the source onto the merged view target if and only if the
source stats successfully with a non-zero size; the target is created as an
empty placeholder exactly when the bind happens and the target was missing;
and a non-existent or empty source is skipped entirely, with nothing (in
particular no empty file) created at the target. -/
theorem c6_network_config_bind (fs : FsSys) (mergedDir configFile : String)
    (hf : configFile ∈ netConfigFiles)
    (hmk : fs.mkdirOK (dirOf (mergedDir ++ configFile)) = true)
    (hcr : fs.createOK (mergedDir ++ configFile) = true) :
    (Ev.bindMount configFile (mergedDir ++ configFile) false
        ∈ bindNetCfgFile fs mergedDir configFile
      ↔ ∃ n, fs.statSize configFile = some n ∧ n ≠ 0)
    ∧ (Ev.createFile (mergedDir ++ configFile) ∈ bindNetCfgFile fs mergedDir configFile
      ↔ (∃ n, fs.statSize configFile = some n ∧ n ≠ 0)
          ∧ fs.targetMissing (mergedDir ++ configFile) = true)
    ∧ ((fs.statSize configFile = none ∨ fs.statSize configFile = some 0) →
        bindNetCfgFile fs mergedDir configFile = [])
    ∧ bindNetworkConfig fs mergedDir
      = bindNetCfgFile fs mergedDir "/etc/resolv.conf" ++
        bindNetCfgFile fs mergedDir "/etc/hosts" ++
        bindNetCfgFile fs mergedDir "/etc/hostname" := by
  refine ⟨?_, ?_, ?_, ?_⟩
  · cases hst : fs.statSize configFile with
    | none => simp [bindNetCfgFile, hst]
    | some n =>
      cases n with
      | zero => simp [bindNetCfgFile, hst]
      | succ k =>
        cases htm : fs.targetMissing (mergedDir ++ configFile) <;>
          simp [bindNetCfgFile, hst, hmk, hcr, htm]
  · cases hst : fs.statSize configFile with
    | none => simp [bindNetCfgFile, hst]
    | some n =>
      cases n with
      | zero => simp [bindNetCfgFile, hst]
      | succ k =>
        cases htm : fs.targetMissing (mergedDir ++ configFile) <;>
          simp [bindNetCfgFile, hst, hmk, hcr, htm]
  · rintro (hst | hst) <;> simp [bindNetCfgFile, hst]
  · simp [bindNetworkConfig, netConfigFiles]

/-- Witness for C6 at concrete inputs: with a source of size one and a
missing target, the binder creates the placeholder and bind-mounts the
source; with a zero-size source nothing happens. -/
theorem c6_network_config_bind_witness :
    Ev.bindMount "/etc/resolv.conf" ("/m" ++ "/etc/resolv.conf") false
      ∈ bindNetCfgFile allOkFs "/m" "/etc/resolv.conf"
    ∧ Ev.createFile ("/m" ++ "/etc/resolv.conf")
      ∈ bindNetCfgFile allOkFs "/m" "/etc/resolv.conf"
    ∧ bindNetCfgFile { allOkFs with statSize := fun _ => some 0 } "/m"
        "/etc/resolv.conf" = [] := by
  have ha := c6_network_config_bind allOkFs "/m" "/etc/resolv.conf"
    (by decide) rfl rfl
  have hb := c6_network_config_bind { allOkFs with statSize := fun _ => some 0 }
    "/m" "/etc/resolv.conf" (by decide) rfl rfl
  refine ⟨?_, ?_, ?_⟩
  · exact ha.1.mpr ⟨1, rfl, by decide⟩
  · exact ha.2.1.mpr ⟨⟨1, rfl, by decide⟩, rfl⟩
  · exact hb.2.2.1 (Or.inr rfl)

/-- C3: in a live session whose syscalls succeed, the namespace and mount
operations happen in exactly the claimed order: unshare of a new mount
namespace; setns into the target PID namespace (before any shell spawn);
setns into the target mount namespace; a second unshare followed by the
recursive private remount of root; the setns calls for net, ipc and uts
(their order among themselves being the map iteration order); and only then
overlay construction with lower directory "/". -/
theorem c3_live_operation_order (sys : Sys) (mapOrder : List NSKind) (writable : Bool)
    (hperm : mapOrder.Perm [NSKind.mnt, NSKind.pid, NSKind.net, NSKind.ipc, NSKind.uts])
    (hopen : ∀ k, sys.openNS k = true)
    (h1 : sys.unshare1OK = true) (hsm : sys.setnsOK NSKind.mnt = true)
    (h2 : sys.unshare2OK = true) (hmp : sys.mountPrivOK = true)
    (hmk : ∀ p, sys.fs.mkdirOK p = true) (ht : sys.fs.tmpfsOK = true)
    (hov : ∀ p, sys.fs.overlayMountOK p = true) (hb : ∀ p, sys.fs.bindOK p = true)
    (hmv : sys.fs.moveMountOK = true) :
    ∃ (rest : List NSKind) (tail : List Ev),
      List.Perm rest [NSKind.net, NSKind.ipc, NSKind.uts] ∧
      (setupLiveMode sys mapOrder writable).2
        = [Ev.unshareNS, Ev.setnsCall NSKind.pid, Ev.setnsCall NSKind.mnt,
            Ev.unshareNS, Ev.mountPrivateRoot]
          ++ rest.map Ev.setnsCall
          ++ [Ev.mkdirAll overlayBasePath, Ev.mountTmpfs overlayBasePath,
              Ev.mkdirAll (overlayBasePath ++ "/upper"),
              Ev.mkdirAll (overlayBasePath ++ "/work"),
              Ev.mkdirAll (overlayBasePath ++ "/merged"),
              Ev.mountOverlay "/" (overlayBasePath ++ "/upper")
                (overlayBasePath ++ "/work") (overlayBasePath ++ "/merged")]
          ++ tail := by
  have hfeq : mapOrder.filter (fun k => decide (k ≠ NSKind.mnt) && sys.openNS k)
      = mapOrder.filter (fun k => decide (k ≠ NSKind.mnt)) := by
    apply List.filter_congr
    intro k _
    simp [hopen]
  have hopt : (mapOrder.filter (fun k => decide (k ≠ NSKind.mnt))).Perm
      [NSKind.pid, NSKind.net, NSKind.ipc, NSKind.uts] := by
    have hp := hperm.filter (fun k => decide (k ≠ NSKind.mnt))
    simpa using hp
  have hpidmem : NSKind.pid ∈ mapOrder.filter (fun k => decide (k ≠ NSKind.mnt)) :=
    hopt.mem_iff.mpr (by decide)
  have hpidmem2 : NSKind.pid ∈ mapOrder := hperm.mem_iff.mpr (by decide)
  have hrest : ((mapOrder.filter (fun k => decide (k ≠ NSKind.mnt))).filter
      (fun k => decide (k ≠ NSKind.pid))).Perm [NSKind.net, NSKind.ipc, NSKind.uts] := by
    have hp := hopt.filter (fun k => decide (k ≠ NSKind.pid))
    simpa using hp
  cases writable with
  | false =>
    refine ⟨(mapOrder.filter (fun k => decide (k ≠ NSKind.mnt))).filter
        (fun k => decide (k ≠ NSKind.pid)),
      [Ev.mkdirAll (overlayBasePath ++ "/merged" ++ "/nix"),
       Ev.mkdirAll (overlayBasePath ++ "/nix-lower"),
       Ev.moveMount (overlayBasePath ++ "/nix-lower"),
       Ev.mkdirAll (overlayBasePath ++ "/nix-upper"),
       Ev.mkdirAll (overlayBasePath ++ "/nix-work"),
       Ev.mountOverlay (overlayBasePath ++ "/nix-lower") (overlayBasePath ++ "/nix-upper")
         (overlayBasePath ++ "/nix-work") (overlayBasePath ++ "/merged" ++ "/nix")]
        ++ bindHostMounts sys.fs (overlayBasePath ++ "/merged"), hrest, ?_⟩
    simp [setupLiveMode, createOverlay, mountNixStore, mkdirList, hfeq, hpidmem,
      hpidmem2, hopen, h1, hsm, h2, hmp, hmk, ht, hov, hb, hmv]
  | true =>
    refine ⟨(mapOrder.filter (fun k => decide (k ≠ NSKind.mnt))).filter
        (fun k => decide (k ≠ NSKind.pid)),
      [Ev.bindMount "/" (overlayBasePath ++ "/merged") true,
       Ev.mkdirAll (overlayBasePath ++ "/merged" ++ "/nix"),
       Ev.mkdirAll (overlayBasePath ++ "/nix-lower"),
       Ev.moveMount (overlayBasePath ++ "/nix-lower"),
       Ev.mkdirAll (overlayBasePath ++ "/nix-upper"),
       Ev.mkdirAll (overlayBasePath ++ "/nix-work"),
       Ev.mountOverlay (overlayBasePath ++ "/nix-lower") (overlayBasePath ++ "/nix-upper")
         (overlayBasePath ++ "/nix-work") (overlayBasePath ++ "/merged" ++ "/nix")],
      hrest, ?_⟩
    simp [setupLiveMode, createOverlay, mountNixStore, mkdirList, hfeq, hpidmem,
      hpidmem2, hopen, h1, hsm, h2, hmp, hmk, ht, hov, hb, hmv]

/-- Witness for C3 at concrete inputs: the fully succeeding oracle with the
map iteration order mnt, pid, net, ipc, uts produces the claimed operation
sequence. -/
theorem c3_live_operation_order_witness :
    ∃ (rest : List NSKind) (tail : List Ev),
      List.Perm rest [NSKind.net, NSKind.ipc, NSKind.uts] ∧
      (setupLiveMode allOkSys
          [NSKind.mnt, NSKind.pid, NSKind.net, NSKind.ipc, NSKind.uts] false).2
        = [Ev.unshareNS, Ev.setnsCall NSKind.pid, Ev.setnsCall NSKind.mnt,
            Ev.unshareNS, Ev.mountPrivateRoot]
          ++ rest.map Ev.setnsCall
          ++ [Ev.mkdirAll overlayBasePath, Ev.mountTmpfs overlayBasePath,
              Ev.mkdirAll (overlayBasePath ++ "/upper"),
              Ev.mkdirAll (overlayBasePath ++ "/work"),
              Ev.mkdirAll (overlayBasePath ++ "/merged"),
              Ev.mountOverlay "/" (overlayBasePath ++ "/upper")
                (overlayBasePath ++ "/work") (overlayBasePath ++ "/merged")]
          ++ tail :=
  c3_live_operation_order allOkSys
    [NSKind.mnt, NSKind.pid, NSKind.net, NSKind.ipc, NSKind.uts] false
    (List.Perm.refl _) (fun k => rfl) rfl rfl rfl rfl (fun p => rfl) rfl
    (fun p => rfl) (fun p => rfl) rfl
